import Mathlib

/-!
Verification of the SINAC water-supply harvesting pipeline
(`scr/Backend/Calidad_agua.py`) against its specification.

The script is shallowly embedded: each Python function becomes a Lean
definition over explicit state.  External effects are oracles supplied as
arguments:

* the geocoding network is `Nat → NetResponse` (the response to the i-th
  attempt for one invocation); transport errors, malformed JSON bodies and
  unparsable coordinate strings — the exception tuple
  `(RequestException, IndexError, ValueError)` the code retries on — are
  folded into `NetResponse.fallo`, while a well-formed body is the parsed
  candidate list;
* the document service is `Nat → FetchOutcome` per source id;
* the durable files are `FileState` values (absent / corrupt / good);
* writes performed by `main` are recorded as a `WriteEvent` trace.

Floating-point coordinates are modelled as pairs of rationals: every claim
uses them only as opaque data compared for equality with the sentinel
`(0.0, 0.0)`.  `time.sleep` calls (geocode pause, exponential backoff) have
no observable effect in the model and are not represented; the
`backoff_factor` argument is kept for signature fidelity.
-/

/-- A coordinate pair as the script stores it: `[lon, lat]`. -/
abbrev Coord := ℚ × ℚ

/-- The failure sentinel `[0.0, 0.0]` returned by `geocode_with_retry`. -/
def sentinel : Coord := (0, 0)

/-- The in-memory `geocode_cache` dictionary: composite key string to
coordinate pair.  Insertion conses at the front; `Cache.lookup` returns the
most recent binding, matching Python dict lookup. -/
abbrev Cache := List (String × Coord)

/-- Dictionary lookup on the cache (first, i.e. most recent, binding wins). -/
def Cache.lookup : Cache → String → Option Coord
  | [], _ => none
  | (k, v) :: rest, key => if k = key then some v else Cache.lookup rest key

/-- What one attempt of the geocoding request observably yields after
parsing: `datos` is the decoded JSON array with each candidate's
`(lon, lat)` already extracted, `fallo` is any exception of the caught
tuple (transport error, malformed body, unparsable number). -/
inductive NetResponse
  | datos (candidates : List Coord)
  | fallo
deriving DecidableEq

/-- Result of one `geocode_with_retry` invocation: the returned coordinate,
the cache afterwards (the Python function mutates the module-level dict),
and how many network requests were issued (instrumentation used to state
the cache-correctness properties). -/
structure GeoResult where
  coords : Coord
  cache : Cache
  netCalls : Nat
deriving DecidableEq

/-- The composite cache key `f"{idred}::{localidad}"`. -/
def cache_key (idred : Nat) (localidad : String) : String :=
  toString idred ++ "::" ++ localidad

/-- The `for i in range(retries)` loop body of `geocode_with_retry`:
`i` is the current attempt index, the second argument the attempts left.
A non-empty candidate list takes the first candidate, stores it in the
cache and returns it; an empty list returns the sentinel at once without
caching; an exception retries (after a backoff sleep, not modelled); an
exhausted loop falls through to the final sentinel return, also without
caching. -/
def geocode_loop (net : Nat → NetResponse) (cache : Cache) (key : String) :
    Nat → Nat → GeoResult
  | _, 0 => ⟨sentinel, cache, 0⟩
  | i, fuel + 1 =>
    match net i with
    | .datos (c :: _) => ⟨c, (key, c) :: cache, 1⟩
    | .datos [] => ⟨sentinel, cache, 1⟩
    | .fallo =>
      let r := geocode_loop net cache key (i + 1) fuel
      ⟨r.coords, r.cache, r.netCalls + 1⟩

/-- `geocode_with_retry(localidad, idred, retries=3, backoff_factor=0.5)`:
a cache hit returns the stored pair immediately (no network call),
otherwise the retry loop runs.  `backoff_factor` only feeds `time.sleep`
and is unused in the model. -/
def geocode_with_retry (net : Nat → NetResponse) (cache : Cache)
    (localidad : String) (idred : Nat) (retries : Nat := 3)
    (backoff_factor : ℚ := 1/2) : GeoResult :=
  match Cache.lookup cache (cache_key idred localidad) with
  | some coords => ⟨coords, cache, 0⟩
  | none => geocode_loop net cache (cache_key idred localidad) 0 retries

example :
    geocode_with_retry (fun _ => .datos [(1, 2)]) [] "a" 5 =
      ⟨(1, 2), [("5::a", (1, 2))], 1⟩ := by
  decide

example :
    geocode_with_retry (fun _ => .fallo) [] "a" 5 = ⟨sentinel, [], 3⟩ := by
  decide

example :
    geocode_with_retry (fun _ => .fallo) [("5::a", (3, 4))] "a" 5 =
      ⟨(3, 4), [("5::a", (3, 4))], 0⟩ := by
  decide

/-- `clean_text`: `" ".join(text.strip().split())` — collapse any
whitespace runs to single spaces and drop leading/trailing whitespace. -/
def clean_text (text : String) : String :=
  String.intercalate " "
    ((text.trim.split Char.isWhitespace).filter (fun s => s ≠ ""))

/-- What fetching the SINAC page for one `idred` observably yields to
`obtener_y_procesar_datos`:

* `fallo`: any exception while fetching or extracting — the function's
  `except (requests.exceptions.RequestException, Exception)` catches every
  exception, transport-level ones included;
* `sin_datos`: a page without the `th "Denominación"` marker;
* `datos`: a page with the marker, carrying the raw extracted texts —
  denomination, manager, water-quality label, the comment tag's text when
  the tag exists, and the place-name strings of the supplied-localities
  block. -/
inductive FetchOutcome
  | fallo
  | sin_datos
  | datos (denominacion gestor calidad : String)
      (comentario_tag : Option String) (localidades : List String)

/-- The comment default: a present tag with non-blank text is cleaned,
a present tag whose stripped text is empty — and an absent tag — give
`"-"`. -/
def comentario_de : Option String → String
  | none => "-"
  | some t => if t.trim = "" then "-" else clean_text t.trim

/-- One GeoJSON feature: the fixed `properties` dict plus the geometry's
coordinate pair.  `idRed`/`denominacion` are `none` unless the error branch
adds them. -/
structure Feature where
  gestor : String
  localidad : String
  calidad : String
  comentario : String
  coordinates : Coord
  idRed : Option Nat
  denominacion : Option String
deriving DecidableEq

/-- The `for loc in localidades` loop of `obtener_y_procesar_datos`:
geocode each place name (threading the shared cache), build the feature,
and classify it — a sentinel coordinate sends it to the error list with
`idRed` and `denominacion` added, anything else to the ok list.  `geoNet`
supplies, per place name, the per-attempt network responses. -/
def procesar_localidades (geoNet : String → Nat → NetResponse) (idred : Nat)
    (denominacion gestor calidad comentario : String) :
    List String → Cache → List Feature × List Feature × Cache
  | [], cache => ([], [], cache)
  | loc :: rest, cache =>
    let r := geocode_with_retry (geoNet loc) cache loc idred
    let base : Feature :=
      { gestor := gestor, localidad := loc, calidad := calidad,
        comentario := comentario, coordinates := r.coords,
        idRed := none, denominacion := none }
    let res :=
      procesar_localidades geoNet idred denominacion gestor calidad
        comentario rest r.cache
    if r.coords = sentinel then
      (res.1,
        { base with
          idRed := some idred
          denominacion := some denominacion } :: res.2.1,
        res.2.2)
    else
      (base :: res.1, res.2.1, res.2.2)

/-- `obtener_y_procesar_datos(idred)`: any exception and a marker-less page
both give the empty pair `([], [])`; a data page cleans the four scalar
fields and each place name, then runs the geocoding loop.  The cache is
threaded explicitly (the Python function mutates the module dict). -/
def obtener_y_procesar_datos (geoNet : String → Nat → NetResponse)
    (idred : Nat) (fetched : FetchOutcome) (cache : Cache) :
    List Feature × List Feature × Cache :=
  match fetched with
  | .fallo => ([], [], cache)
  | .sin_datos => ([], [], cache)
  | .datos denominacion gestor calidad comentario_tag localidades =>
    procesar_localidades geoNet idred (clean_text denominacion)
      (clean_text gestor) (clean_text calidad) (comentario_de comentario_tag)
      (localidades.map clean_text) cache

/-- The external world a run observes: per source id the fetched document,
and per place name the per-attempt geocoding responses.  A fixed world
models "remote data unchanged" across the run. -/
structure World where
  fetch : Nat → FetchOutcome
  geoNet : String → Nat → NetResponse

/-- The mutable state `main` drives: the `procesados` set, the two feature
lists and the geocode cache. -/
structure RunState where
  procesados : Finset ℕ
  features_ok : List Feature
  features_error : List Feature
  cache : Cache
deriving DecidableEq

/-- One durable-file write the script performs: the progress list (saved
after every completed unit), the ok GeoJSON, the error GeoJSON, and the
geocode cache (the latter three in the finalize phase). -/
inductive WriteEvent
  | progreso (ids : Finset ℕ)
  | salida_ok (fs : List Feature)
  | salida_error (fs : List Feature)
  | cache_out (c : Cache)
deriving DecidableEq

def WriteEvent.isProgreso : WriteEvent → Bool
  | .progreso _ => true
  | _ => false

def WriteEvent.isSalidaOk : WriteEvent → Bool
  | .salida_ok _ => true
  | _ => false

def WriteEvent.isSalidaError : WriteEvent → Bool
  | .salida_error _ => true
  | _ => false

def WriteEvent.isCacheOut : WriteEvent → Bool
  | .cache_out _ => true
  | _ => false

/-- The collection step for one completed unit: extend the two feature
lists, add the id to `procesados` and persist the progress file.  The
worker's function catches every exception, so `futuro.result()` always
returns and the id is always marked complete. -/
def procesar_id (w : World) (st : RunState) (idred : Nat) :
    RunState × WriteEvent :=
  let res := obtener_y_procesar_datos w.geoNet idred (w.fetch idred) st.cache
  let st' : RunState :=
    { procesados := insert idred st.procesados
      features_ok := st.features_ok ++ res.1
      features_error := st.features_error ++ res.2.1
      cache := res.2.2 }
  (st', .progreso st'.procesados)

/-- The `as_completed` collection loop over the dispatched ids.  The pool
completes units in nondeterministic order; the model processes the work
list in submission order — a determinization that fixes one completion
order. -/
def bucle (w : World) : List Nat → RunState → RunState × List WriteEvent
  | [], st => (st, [])
  | idred :: rest, st =>
    let paso := procesar_id w st idred
    let resto := bucle w rest paso.1
    (resto.1, paso.2 :: resto.2)

/-- `list(np.arange(lo, hi, 1))`: the configured contiguous id range
`[lo, hi)`. -/
def lista_zip (lo hi : Nat) : List Nat :=
  List.range' lo (hi - lo)

/-- `[idred for idred in lista_zip if idred not in procesados]`. -/
def ids_a_procesar (lo hi : Nat) (procesados : Finset ℕ) : List Nat :=
  (lista_zip lo hi).filter (fun idred => idred ∉ procesados)

/-- The finalize phase's writes: the ok collection always, the error
collection only when non-empty, the geocode cache unconditionally. -/
def finalize_events (st : RunState) : List WriteEvent :=
  [.salida_ok st.features_ok] ++
    (if st.features_error = [] then [] else [.salida_error st.features_error])
      ++ [.cache_out st.cache]

/-- The planned and dispatched part of `main`, from a loaded state: filter
the id range by `procesados`, run the pool loop, then finalize.  Returns
the final state and the full write trace of the run. -/
def main_run (w : World) (lo hi : Nat) (st0 : RunState) :
    RunState × List WriteEvent :=
  let corrida := bucle w (ids_a_procesar lo hi st0.procesados) st0
  (corrida.1, corrida.2 ++ finalize_events corrida.1)

/-- A durable JSON file as the loader sees it: missing, undecodable, or
holding a decoded value. -/
inductive FileState (α : Type)
  | absent
  | corrupt
  | good (a : α)

/-- The message of the `json.JSONDecodeError` a corrupt progress file
raises out of `main` (no handler catches it). -/
def progress_decode_error : String := "json.JSONDecodeError"

/-- Loading `progress.json`: absent gives the empty set; the `json.load`
call is not wrapped in any try/except, so a corrupt file raises. -/
def load_progress (f : FileState (List Nat)) : Except String (Finset ℕ) :=
  match f with
  | .absent => .ok ∅
  | .corrupt => .error progress_decode_error
  | .good l => .ok l.toFinset

/-- Loading an output GeoJSON (`output_file` or `error_file`): absent gives
`[]`, and `json.JSONDecodeError` is caught and downgraded to `[]` with a
logged warning. -/
def load_features (f : FileState (List Feature)) : List Feature :=
  match f with
  | .absent => []
  | .corrupt => []
  | .good l => l

/-- Loading `geocode_cache.json` at module import: absent gives the empty
dict, and `json.JSONDecodeError` is caught and downgraded to the empty
dict with a logged warning. -/
def load_cache (f : FileState Cache) : Cache :=
  match f with
  | .absent => []
  | .corrupt => []
  | .good c => c

/-- The durable files present when the process starts. -/
structure Durable where
  progress_file : FileState (List Nat)
  output_file : FileState (List Feature)
  error_file : FileState (List Feature)
  cache_file : FileState Cache

/-- `main()`: load progress (a corrupt file is fatal), load the two output
collections (corrupt downgraded to empty), then plan, dispatch and
finalize.  The cache was loaded at module import and is passed in. -/
def main' (w : World) (lo hi : Nat) (cache0 : Cache) (d : Durable) :
    Except String (RunState × List WriteEvent) :=
  match load_progress d.progress_file with
  | .error e => .error e
  | .ok procesados =>
    .ok (main_run w lo hi
      { procesados := procesados
        features_ok := load_features d.output_file
        features_error := load_features d.error_file
        cache := cache0 })

/-- The derived file paths `setup_environment` builds into `CONFIG`. -/
structure Config where
  output_dir : String
  state_dir : String
  output_file : String
  error_file : String
  cache_file : String
  progress_file : String
deriving DecidableEq

/-- The `ValueError` message raised when `OUTPUT_DIR` or `STATE_DIR` is
unset (or empty, which Python's `not` also treats as missing). -/
def setup_error : String :=
  "Las variables de entorno OUTPUT_DIR y STATE_DIR deben estar configuradas para que el script funcione."

/-- `setup_environment()`: read the two environment variables and raise
before anything else when either is missing or empty; otherwise build the
file paths.  Directory creation and logger setup have no modelled effect. -/
def setup_environment (env_output_dir env_state_dir : Option String) :
    Except String Config :=
  match env_output_dir, env_state_dir with
  | some o, some s =>
    if o = "" ∨ s = "" then .error setup_error
    else
      .ok { output_dir := o
            state_dir := s
            output_file := o ++ "/abastecimientos_test.geojson"
            error_file := o ++ "/abastecimientos_errors.geojson"
            cache_file := s ++ "/geocode_cache.json"
            progress_file := s ++ "/progress.json" }
  | _, _ => .error setup_error

/-- The whole script, top to bottom: `setup_environment()` at import time,
then the cache load, then `main()`.  A setup failure aborts before the
cache is read, any document is fetched, any geocode call is made or any
file is written — the result then carries no state and no write trace, for
every world and every durable-file content. -/
def script (env_output_dir env_state_dir : Option String) (w : World)
    (lo hi : Nat) (d : Durable) :
    Except String (RunState × List WriteEvent) :=
  match setup_environment env_output_dir env_state_dir with
  | .error e => .error e
  | .ok _ => main' w lo hi (load_cache d.cache_file) d

/-- A sequence of `geocode_with_retry` invocations for one fixed
`(localidad, idred)` pair, each with its own per-attempt network oracle,
threading the cache: the coordinates returned in order, the final cache,
and the total number of network requests of the whole sequence. -/
def geocode_seq : List (Nat → NetResponse) → Cache → String → Nat →
    List Coord × Cache × Nat
  | [], cache, _, _ => ([], cache, 0)
  | net :: nets, cache, localidad, idred =>
    let r := geocode_with_retry net cache localidad idred
    let resto := geocode_seq nets r.cache localidad idred
    (r.coords :: resto.1, resto.2.1, r.netCalls + resto.2.2)

lemma geocode_hit (net : Nat → NetResponse) (cache : Cache)
    (localidad : String) (idred : Nat) (retries : Nat) (bf : ℚ) (c : Coord)
    (h : Cache.lookup cache (cache_key idred localidad) = some c) :
    geocode_with_retry net cache localidad idred retries bf = ⟨c, cache, 0⟩ := by
  simp [geocode_with_retry, h]

lemma geocode_loop_succ (net : Nat → NetResponse) (cache : Cache)
    (key : String) (i n : Nat) :
    geocode_loop net cache key i (n + 1) =
      match net i with
      | .datos (c :: _) => (⟨c, (key, c) :: cache, 1⟩ : GeoResult)
      | .datos [] => ⟨sentinel, cache, 1⟩
      | .fallo =>
        let r := geocode_loop net cache key (i + 1) n
        ⟨r.coords, r.cache, r.netCalls + 1⟩ := by
  rfl

lemma geocode_loop_cache_shape (net : Nat → NetResponse) (cache : Cache)
    (key : String) :
    ∀ fuel i, (geocode_loop net cache key i fuel).cache = cache ∨
      ∃ c, (geocode_loop net cache key i fuel).cache = (key, c) :: cache := by
  intro fuel
  induction fuel with
  | zero => intro i; left; rfl
  | succ n ih =>
    intro i
    rw [geocode_loop_succ]
    cases hnet : net i with
    | datos l =>
      cases l with
      | nil => left; rfl
      | cons c cs => right; exact ⟨c, rfl⟩
    | fallo => exact ih (i + 1)

lemma lookup_cons_ne (cache : Cache) (key k : String) (c : Coord)
    (hne : key ≠ k) :
    Cache.lookup ((key, c) :: cache) k = Cache.lookup cache k := by
  simp [Cache.lookup, hne]

/-- An existing cache binding survives any single geocoder invocation and
keeps its value: the function inserts only under a key it just found
absent, and never deletes. -/
lemma geocode_preserves (net : Nat → NetResponse) (cache : Cache)
    (localidad : String) (idred retries : Nat) (bf : ℚ) (k : String)
    (v : Coord) (h : Cache.lookup cache k = some v) :
    Cache.lookup (geocode_with_retry net cache localidad idred retries bf).cache
      k = some v := by
  unfold geocode_with_retry
  cases hc : Cache.lookup cache (cache_key idred localidad) with
  | some c => simpa using h
  | none =>
    simp only []
    rcases geocode_loop_cache_shape net cache (cache_key idred localidad)
        retries 0 with hsh | ⟨c, hsh⟩
    · rw [hsh]; exact h
    · rw [hsh, lookup_cons_ne]
      · exact h
      · intro he; rw [he, h] at hc; exact Option.noConfusion hc

lemma geocode_loop_sin_exito (net : Nat → NetResponse) (cache : Cache)
    (key : String) :
    ∀ fuel i, (∀ j, i ≤ j → j < i + fuel →
        net j = .fallo ∨ net j = .datos []) →
      (geocode_loop net cache key i fuel).coords = sentinel ∧
        (geocode_loop net cache key i fuel).cache = cache := by
  intro fuel
  induction fuel with
  | zero => intro i _; exact ⟨rfl, rfl⟩
  | succ n ih =>
    intro i hresp
    have hi : net i = .fallo ∨ net i = .datos [] := by
      exact hresp i le_rfl (by omega)
    rw [geocode_loop_succ]
    rcases hi with hi | hi <;> rw [hi]
    · exact ih (i + 1) (fun j h1 h2 => hresp j (by omega) (by omega))
    · exact ⟨rfl, rfl⟩

lemma geocode_loop_llama (net : Nat → NetResponse) (cache : Cache)
    (key : String) (fuel i : Nat) (h : 0 < fuel) :
    1 ≤ (geocode_loop net cache key i fuel).netCalls := by
  match fuel, h with
  | n + 1, _ =>
    rw [geocode_loop_succ]
    cases hnet : net i with
    | datos l =>
      cases l with
      | nil => exact le_rfl
      | cons c cs => exact le_rfl
    | fallo => exact Nat.le_add_left 1 _

/-- C3: for a fixed `(sourceID, placeName)` pair, once one invocation of
`geocode_with_retry` has resolved the pair via the network successfully
(the key was absent and is cached afterwards), every later invocation —
whatever its network oracle — returns that identical cached coordinate,
leaves the cache unchanged, and the whole later sequence issues zero
network requests: the network resolves the key at most once. -/
theorem geocoder_resolves_at_most_once (net1 : Nat → NetResponse)
    (cache : Cache) (localidad : String) (idred : Nat) (c : Coord)
    (h0 : Cache.lookup cache (cache_key idred localidad) = none)
    (h1 : Cache.lookup (geocode_with_retry net1 cache localidad idred).cache
      (cache_key idred localidad) = some c) :
    ∀ nets : List (Nat → NetResponse),
      geocode_seq nets (geocode_with_retry net1 cache localidad idred).cache
          localidad idred =
        (List.replicate nets.length c,
          (geocode_with_retry net1 cache localidad idred).cache, 0) := by
  intro nets
  induction nets with
  | nil => rfl
  | cons net nets ih =>
    show geocode_seq (net :: nets) _ localidad idred = _
    unfold geocode_seq
    rw [geocode_hit net _ localidad idred 3 (1/2) c h1]
    simp only [ih]
    rfl

/-- C3 witness: with an empty cache and a network that answers `(1, 2)`,
the first call resolves and caches; two subsequent calls both return
`(1, 2)` from the cache with zero network requests. -/
theorem geocoder_resolves_at_most_once_witness :
    Cache.lookup [] (cache_key 5 "a") = none ∧
      Cache.lookup
        (geocode_with_retry (fun _ => .datos [(1, 2)]) [] "a" 5).cache
        (cache_key 5 "a") = some (1, 2) ∧
      geocode_seq [fun _ => .fallo, fun _ => .datos [(9, 9)]]
          (geocode_with_retry (fun _ => .datos [(1, 2)]) [] "a" 5).cache
          "a" 5 =
        ([(1, 2), (1, 2)],
          (geocode_with_retry (fun _ => .datos [(1, 2)]) [] "a" 5).cache,
          0) :=
  ⟨rfl, by decide,
    geocoder_resolves_at_most_once (fun _ => .datos [(1, 2)]) [] "a" 5
      (1, 2) rfl (by decide) [fun _ => .fallo, fun _ => .datos [(9, 9)]]⟩

/-- C4: when the retry window holds only transport-level failures and
well-formed-but-empty responses — so the invocation ends either through
the empty-response return or by exhausting the retries — the geocoder
returns the sentinel, the cache is completely unchanged (the key stays
absent), and a subsequent invocation for the same key goes to the network
again (at least one request, for any positive retry budget). -/
theorem geocoder_sentinel_not_cached (net net2 : Nat → NetResponse)
    (cache : Cache) (localidad : String) (idred retries retries2 : Nat)
    (h0 : Cache.lookup cache (cache_key idred localidad) = none)
    (hresp : ∀ i, i < retries → net i = .fallo ∨ net i = .datos [])
    (h2 : 0 < retries2) :
    (geocode_with_retry net cache localidad idred retries).coords =
        sentinel ∧
      (geocode_with_retry net cache localidad idred retries).cache = cache ∧
      Cache.lookup
        (geocode_with_retry net cache localidad idred retries).cache
        (cache_key idred localidad) = none ∧
      1 ≤ (geocode_with_retry net2
            (geocode_with_retry net cache localidad idred retries).cache
            localidad idred retries2).netCalls := by
  have hloop := geocode_loop_sin_exito net cache (cache_key idred localidad)
    retries 0 (fun j h1 hj2 => hresp j (by omega))
  have heq : geocode_with_retry net cache localidad idred retries =
      geocode_loop net cache (cache_key idred localidad) 0 retries := by
    unfold geocode_with_retry
    rw [h0]
  refine ⟨by rw [heq]; exact hloop.1, by rw [heq]; exact hloop.2, ?_, ?_⟩
  · rw [heq, hloop.2]; exact h0
  · rw [heq, hloop.2]
    unfold geocode_with_retry
    rw [h0]
    exact geocode_loop_llama net2 cache (cache_key idred localidad)
      retries2 0 h2

/-- C4 witness: three transport failures exhaust the default retries; the
result is the sentinel, the cache stays empty, and a following call for
the same key issues a network request. -/
theorem geocoder_sentinel_not_cached_witness :
    Cache.lookup [] (cache_key 5 "a") = none ∧
      (∀ i, i < 3 → (fun _ => NetResponse.fallo) i = .fallo ∨
        (fun _ => NetResponse.fallo) i = .datos []) ∧
      (0 : Nat) < 3 ∧
      ((geocode_with_retry (fun _ => .fallo) [] "a" 5 3).coords = sentinel ∧
        (geocode_with_retry (fun _ => .fallo) [] "a" 5 3).cache = [] ∧
        Cache.lookup (geocode_with_retry (fun _ => .fallo) [] "a" 5 3).cache
          (cache_key 5 "a") = none ∧
        1 ≤ (geocode_with_retry (fun _ => .datos [(1, 2)])
              (geocode_with_retry (fun _ => .fallo) [] "a" 5 3).cache
              "a" 5 3).netCalls) :=
  ⟨rfl, fun i _ => Or.inl rfl, by decide,
    geocoder_sentinel_not_cached (fun _ => .fallo) (fun _ => .datos [(1, 2)])
      [] "a" 5 3 3 rfl (fun i _ => Or.inl rfl) (by decide)⟩

lemma procesar_localidades_preserva (geoNet : String → Nat → NetResponse)
    (idred : Nat) (denominacion gestor calidad comentario : String)
    (k : String) (v : Coord) :
    ∀ (locs : List String) (cache : Cache), Cache.lookup cache k = some v →
      Cache.lookup (procesar_localidades geoNet idred denominacion gestor
        calidad comentario locs cache).2.2 k = some v := by
  intro locs
  induction locs with
  | nil => intro cache h; exact h
  | cons loc rest ih =>
    intro cache h
    unfold procesar_localidades
    have hg := geocode_preserves (geoNet loc) cache loc idred 3 (1/2) k v h
    by_cases hs : (geocode_with_retry (geoNet loc) cache loc idred).coords =
        sentinel
    · simp only [if_pos hs]
      exact ih _ hg
    · simp only [if_neg hs]
      exact ih _ hg

lemma obtener_preserva (geoNet : String → Nat → NetResponse) (idred : Nat)
    (fetched : FetchOutcome) (cache : Cache) (k : String) (v : Coord)
    (h : Cache.lookup cache k = some v) :
    Cache.lookup (obtener_y_procesar_datos geoNet idred fetched cache).2.2 k
      = some v := by
  cases fetched with
  | fallo => exact h
  | sin_datos => exact h
  | datos d g cal ct locs =>
    exact procesar_localidades_preserva geoNet idred (clean_text d)
      (clean_text g) (clean_text cal) (comentario_de ct) k v
      (locs.map clean_text) cache h

lemma bucle_preserva (w : World) (k : String) (v : Coord) :
    ∀ (ids : List Nat) (st : RunState), Cache.lookup st.cache k = some v →
      Cache.lookup (bucle w ids st).1.cache k = some v := by
  intro ids
  induction ids with
  | nil => intro st h; exact h
  | cons idred rest ih =>
    intro st h
    unfold bucle
    exact ih _ (obtener_preserva w.geoNet idred (w.fetch idred) st.cache
      k v h)

/-- C10: the geocode cache grows monotonically and bindings are never
overwritten or deleted — any binding present before a geocoder invocation
is present with the same value afterwards; an invocation whose key is
already bound returns exactly the stored value and leaves the cache (and
the network) untouched; and a whole pipeline run (`main_run`) preserves
every binding of the cache it starts from. -/
theorem geocode_cache_monotone (k : String) (v : Coord) :
    (∀ (net : Nat → NetResponse) (cache : Cache) (localidad : String)
      (idred retries : Nat) (bf : ℚ), Cache.lookup cache k = some v →
        Cache.lookup
          (geocode_with_retry net cache localidad idred retries bf).cache k =
          some v) ∧
    (∀ (net : Nat → NetResponse) (cache : Cache) (localidad : String)
      (idred retries : Nat) (bf : ℚ),
        Cache.lookup cache (cache_key idred localidad) = some v →
        geocode_with_retry net cache localidad idred retries bf =
          ⟨v, cache, 0⟩) ∧
    (∀ (w : World) (lo hi : Nat) (st0 : RunState),
        Cache.lookup st0.cache k = some v →
        Cache.lookup (main_run w lo hi st0).1.cache k = some v) := by
  refine ⟨?_, ?_, ?_⟩
  · intro net cache localidad idred retries bf h
    exact geocode_preserves net cache localidad idred retries bf k v h
  · intro net cache localidad idred retries bf h
    exact geocode_hit net cache localidad idred retries bf v h
  · intro w lo hi st0 h
    exact bucle_preserva w k v (ids_a_procesar lo hi st0.procesados) st0 h

/-- C10 witness: a one-entry cache survives a run over the range `[1, 3)`
whose geocoder always answers `(7, 8)` — the stored binding for key
`"1::a"` keeps its value, and a direct invocation under that key returns
the stored pair with no network call. -/
theorem geocode_cache_monotone_witness :
    Cache.lookup [(cache_key 1 "a", ((3 : ℚ), (4 : ℚ)))] (cache_key 1 "a") =
        some (3, 4) ∧
      Cache.lookup
        (main_run ⟨fun _ => .datos "d" "g" "c" none ["a"],
            fun _ _ => .datos [(7, 8)]⟩ 1 3
          ⟨∅, [], [], [(cache_key 1 "a", (3, 4))]⟩).1.cache
        (cache_key 1 "a") = some (3, 4) ∧
      geocode_with_retry (fun _ => .fallo)
          [(cache_key 1 "a", (3, 4))] "a" 1 3 (1/2) =
        ⟨(3, 4), [(cache_key 1 "a", (3, 4))], 0⟩ :=
  ⟨by decide,
    (geocode_cache_monotone (cache_key 1 "a") (3, 4)).2.2
      ⟨fun _ => .datos "d" "g" "c" none ["a"], fun _ _ => .datos [(7, 8)]⟩
      1 3 ⟨∅, [], [], [(cache_key 1 "a", (3, 4))]⟩ (by decide),
    (geocode_cache_monotone (cache_key 1 "a") (3, 4)).2.1
      (fun _ => .fallo) [(cache_key 1 "a", (3, 4))] "a" 1 3 (1/2)
      (by decide)⟩

lemma procesar_localidades_clasifica (geoNet : String → Nat → NetResponse)
    (idred : Nat) (denominacion gestor calidad comentario : String) :
    ∀ (locs : List String) (cache : Cache),
      (∀ ft ∈ (procesar_localidades geoNet idred denominacion gestor calidad
          comentario locs cache).2.1,
        ft.coordinates = sentinel ∧ ft.idRed = some idred ∧
          ft.denominacion = some denominacion) ∧
      (∀ ft ∈ (procesar_localidades geoNet idred denominacion gestor calidad
          comentario locs cache).1,
        ft.coordinates ≠ sentinel ∧ ft.idRed = none ∧
          ft.denominacion = none) := by
  intro locs
  induction locs with
  | nil =>
    intro cache
    exact ⟨fun ft hft => absurd hft (List.not_mem_nil ft),
      fun ft hft => absurd hft (List.not_mem_nil ft)⟩
  | cons loc rest ih =>
    intro cache
    unfold procesar_localidades
    by_cases hs : (geocode_with_retry (geoNet loc) cache loc idred).coords =
        sentinel
    · simp only [if_pos hs]
      constructor
      · intro ft hft
        rcases List.mem_cons.mp hft with hft | hft
        · subst hft; exact ⟨hs, rfl, rfl⟩
        · exact (ih _).1 ft hft
      · intro ft hft
        exact (ih _).2 ft hft
    · simp only [if_neg hs]
      constructor
      · intro ft hft
        exact (ih _).1 ft hft
      · intro ft hft
        rcases List.mem_cons.mp hft with hft | hft
        · subst hft; exact ⟨hs, rfl, rfl⟩
        · exact (ih _).2 ft hft

lemma procesar_localidades_longitud (geoNet : String → Nat → NetResponse)
    (idred : Nat) (denominacion gestor calidad comentario : String) :
    ∀ (locs : List String) (cache : Cache),
      (procesar_localidades geoNet idred denominacion gestor calidad
          comentario locs cache).1.length +
        (procesar_localidades geoNet idred denominacion gestor calidad
          comentario locs cache).2.1.length = locs.length := by
  intro locs
  induction locs with
  | nil => intro cache; rfl
  | cons loc rest ih =>
    intro cache
    unfold procesar_localidades
    by_cases hs : (geocode_with_retry (geoNet loc) cache loc idred).coords =
        sentinel
    · simp only [if_pos hs, List.length_cons]
      rw [← ih ((geocode_with_retry (geoNet loc) cache loc idred).cache)]
      omega
    · simp only [if_neg hs, List.length_cons]
      rw [← ih ((geocode_with_retry (geoNet loc) cache loc idred).cache)]
      omega

/-- C5: every assembled record is placed (the ok and error collections
together hold one feature per place name); every feature in the error
collection has the sentinel coordinate and carries `idRed` (the source id)
and `denominacion`; every feature in the ok collection has a non-sentinel
coordinate and carries neither of those two fields. -/
theorem record_classification (geoNet : String → Nat → NetResponse)
    (idred : Nat) (fetched : FetchOutcome) (cache : Cache) :
    (∀ ft ∈ (obtener_y_procesar_datos geoNet idred fetched cache).2.1,
      ft.coordinates = sentinel ∧ ft.idRed = some idred ∧
        ft.denominacion.isSome) ∧
    (∀ ft ∈ (obtener_y_procesar_datos geoNet idred fetched cache).1,
      ft.coordinates ≠ sentinel ∧ ft.idRed = none ∧
        ft.denominacion = none) ∧
    (obtener_y_procesar_datos geoNet idred fetched cache).1.length +
        (obtener_y_procesar_datos geoNet idred fetched cache).2.1.length =
      (match fetched with
        | .datos _ _ _ _ locs => locs.length
        | _ => 0) := by
  cases fetched with
  | fallo =>
    exact ⟨fun ft hft => absurd hft (List.not_mem_nil ft),
      fun ft hft => absurd hft (List.not_mem_nil ft), rfl⟩
  | sin_datos =>
    exact ⟨fun ft hft => absurd hft (List.not_mem_nil ft),
      fun ft hft => absurd hft (List.not_mem_nil ft), rfl⟩
  | datos d g cal ct locs =>
    have h := procesar_localidades_clasifica geoNet idred (clean_text d)
      (clean_text g) (clean_text cal) (comentario_de ct)
      (locs.map clean_text) cache
    have hl := procesar_localidades_longitud geoNet idred (clean_text d)
      (clean_text g) (clean_text cal) (comentario_de ct)
      (locs.map clean_text) cache
    refine ⟨fun ft hft => ?_, h.2, ?_⟩
    · rcases h.1 ft hft with ⟨h1, h2, h3⟩
      exact ⟨h1, h2, by rw [h3]; rfl⟩
    · show _ = locs.length
      rw [← List.length_map locs clean_text]
      exact hl

/-- C6: the work set is exactly the configured range `[lo, hi)` minus the
loaded completed-id set — membership depends on nothing else (in
particular not on the loaded output collections). -/
theorem work_set_exact (lo hi : Nat) (procesados : Finset ℕ) (i : Nat) :
    i ∈ ids_a_procesar lo hi procesados ↔
      lo ≤ i ∧ i < hi ∧ i ∉ procesados := by
  unfold ids_a_procesar lista_zip
  rw [List.mem_filter]
  rw [List.mem_range'_1]
  constructor
  · rintro ⟨⟨h1, h2⟩, h3⟩
    exact ⟨h1, by omega, by simpa using h3⟩
  · rintro ⟨h1, h2, h3⟩
    exact ⟨⟨h1, by omega⟩, by simpa using h3⟩

/-- C7: a run whose loaded completed-id set already covers the configured
range changes nothing — the final state equals the loaded state (no new
completed ids, ok and error collections unchanged) and the only writes are
the finalize writes of that unchanged state. -/
theorem second_run_idempotent (w : World) (lo hi : Nat) (st0 : RunState)
    (hcov : ∀ i, lo ≤ i → i < hi → i ∈ st0.procesados) :
    main_run w lo hi st0 = (st0, finalize_events st0) := by
  have hids : ids_a_procesar lo hi st0.procesados = [] := by
    apply List.filter_eq_nil_iff.mpr
    intro a ha
    rw [lista_zip, List.mem_range'_1] at ha
    simp only [decide_eq_true_eq, Decidable.not_not]
    exact hcov a ha.1 (by omega)
  unfold main_run
  rw [hids]
  rfl

/-- C7 witness: with progress `{1, 2}` covering the range `[1, 3)`, a run
against a world of transport failures returns the loaded state and only
the three finalize writes. -/
theorem second_run_idempotent_witness :
    (∀ i, 1 ≤ i → i < 3 →
      i ∈ (⟨{1, 2}, [], [], []⟩ : RunState).procesados) ∧
    main_run ⟨fun _ => FetchOutcome.fallo, fun _ _ => .fallo⟩ 1 3
        ⟨{1, 2}, [], [], []⟩ =
      (⟨{1, 2}, [], [], []⟩, finalize_events ⟨{1, 2}, [], [], []⟩) :=
  ⟨by decide,
    second_run_idempotent ⟨fun _ => FetchOutcome.fallo, fun _ _ => .fallo⟩
      1 3 ⟨{1, 2}, [], [], []⟩ (by decide)⟩

lemma bucle_eventos (w : World) :
    ∀ (ids : List Nat) (st : RunState),
      ∀ e ∈ (bucle w ids st).2, e.isProgreso = true := by
  intro ids
  induction ids with
  | nil => intro st e he; exact absurd he (List.not_mem_nil e)
  | cons idred rest ih =>
    intro st e he
    unfold bucle at he
    rcases List.mem_cons.mp he with he | he
    · subst he; rfl
    · exact ih _ e he

lemma filter_eq_nil_de_progreso (p : WriteEvent → Bool)
    (hp : ∀ ids : Finset ℕ, p (.progreso ids) = false)
    (l : List WriteEvent) (hl : ∀ e ∈ l, e.isProgreso = true) :
    l.filter p = [] := by
  apply List.filter_eq_nil_iff.mpr
  intro e he
  have := hl e he
  cases e with
  | progreso ids => simp [hp ids]
  | salida_ok fs => exact absurd this (by simp [WriteEvent.isProgreso])
  | salida_error fs => exact absurd this (by simp [WriteEvent.isProgreso])
  | cache_out c => exact absurd this (by simp [WriteEvent.isProgreso])

/-- C8: over the write trace of a whole run, the ok collection is written
exactly once (with the final ok features), the cache exactly once (with
the final cache), the error collection exactly once when the final error
list is non-empty and never otherwise, and everything before those
finalize writes is a progress-ledger write — neither the result store nor
the cache is persisted mid-run. -/
theorem finalize_write_discipline (w : World) (lo hi : Nat)
    (st0 : RunState) :
    ((main_run w lo hi st0).2.filter WriteEvent.isSalidaOk =
        [.salida_ok (main_run w lo hi st0).1.features_ok]) ∧
    ((main_run w lo hi st0).2.filter WriteEvent.isCacheOut =
        [.cache_out (main_run w lo hi st0).1.cache]) ∧
    ((main_run w lo hi st0).2.filter WriteEvent.isSalidaError =
        if (main_run w lo hi st0).1.features_error = [] then []
        else [.salida_error (main_run w lo hi st0).1.features_error]) ∧
    ∃ pre, (main_run w lo hi st0).2 =
        pre ++ finalize_events (main_run w lo hi st0).1 ∧
      ∀ e ∈ pre, e.isProgreso = true := by
  have hfin : (main_run w lo hi st0).1 =
      (bucle w (ids_a_procesar lo hi st0.procesados) st0).1 := rfl
  have hevs : (main_run w lo hi st0).2 =
      (bucle w (ids_a_procesar lo hi st0.procesados) st0).2 ++
        finalize_events (main_run w lo hi st0).1 := rfl
  have hpre := bucle_eventos w (ids_a_procesar lo hi st0.procesados) st0
  refine ⟨?_, ?_, ?_, ⟨_, hevs, hpre⟩⟩
  · rw [hevs, List.filter_append,
      filter_eq_nil_de_progreso _ (fun _ => rfl) _ hpre, List.nil_append]
    unfold finalize_events
    by_cases he : (main_run w lo hi st0).1.features_error = []
    · simp [he, WriteEvent.isSalidaOk, List.filter]
    · simp [he, WriteEvent.isSalidaOk, List.filter]
  · rw [hevs, List.filter_append,
      filter_eq_nil_de_progreso _ (fun _ => rfl) _ hpre, List.nil_append]
    unfold finalize_events
    by_cases he : (main_run w lo hi st0).1.features_error = []
    · simp [he, WriteEvent.isCacheOut, List.filter]
    · simp [he, WriteEvent.isCacheOut, List.filter]
  · rw [hevs, List.filter_append,
      filter_eq_nil_de_progreso _ (fun _ => rfl) _ hpre, List.nil_append]
    unfold finalize_events
    by_cases he : (main_run w lo hi st0).1.features_error = []
    · simp [he, WriteEvent.isSalidaError, List.filter]
    · simp [he, WriteEvent.isSalidaError, List.filter]

/-- C9: when `OUTPUT_DIR` or `STATE_DIR` is missing (unset, or empty —
Python's `not` treats both as missing), the script aborts with the setup
diagnostic before any work: the outcome is `.error` for every world and
every durable-file content, so no document is fetched, no geocode call is
made, and no state is read or written (the result carries no write
trace). -/
theorem missing_config_aborts (env_output_dir env_state_dir : Option String)
    (h : env_output_dir = none ∨ env_output_dir = some "" ∨
      env_state_dir = none ∨ env_state_dir = some "") :
    ∀ (w : World) (lo hi : Nat) (d : Durable),
      script env_output_dir env_state_dir w lo hi d =
        .error setup_error := by
  intro w lo hi d
  unfold script setup_environment
  rcases h with h | h | h | h <;> subst h
  · rfl
  · cases env_state_dir with
    | none => rfl
    | some s => simp
  · cases env_output_dir with
    | none => rfl
    | some o =>
      by_cases ho : o = ""
      · simp [ho]
      · simp [ho]
  · cases env_output_dir with
    | none => rfl
    | some o =>
      by_cases ho : o = ""
      · simp [ho]
      · simp [ho]

/-- C9 witness: with `OUTPUT_DIR` unset and `STATE_DIR` set, the script
aborts with the setup diagnostic against a concrete world and durable
state. -/
theorem missing_config_aborts_witness :
    ((none : Option String) = none ∨ (none : Option String) = some "" ∨
      (some "/state" : Option String) = none ∨
      (some "/state" : Option String) = some "") ∧
    script none (some "/state")
        ⟨fun _ => FetchOutcome.fallo, fun _ _ => .fallo⟩ 1 3
        ⟨.absent, .absent, .absent, .absent⟩ =
      .error setup_error :=
  ⟨Or.inl rfl,
    missing_config_aborts none (some "/state") (Or.inl rfl)
      ⟨fun _ => FetchOutcome.fallo, fun _ _ => .fallo⟩ 1 3
      ⟨.absent, .absent, .absent, .absent⟩⟩

/-- C1 counterexample: for source id 1, the document fetch fails with a
transport-level error; the fetch indeed yields the empty result pair, but
the run still adds id 1 to the completed set — `obtener_y_procesar_datos`
catches the transport error and returns normally, so the collector marks
the id complete — refuting the claim that such an id is never marked
complete and stays in the next run's work set. -/
theorem transport_error_still_completed_cex :
    obtener_y_procesar_datos (fun _ _ => .fallo) 1 FetchOutcome.fallo [] =
        ([], [], []) ∧
      1 ∈ (main_run ⟨fun _ => FetchOutcome.fallo, fun _ _ => .fallo⟩ 1 2
            ⟨∅, [], [], []⟩).1.procesados ∧
      1 ∉ ids_a_procesar 1 2
        (main_run ⟨fun _ => FetchOutcome.fallo, fun _ _ => .fallo⟩ 1 2
          ⟨∅, [], [], []⟩).1.procesados := by
  refine ⟨rfl, by decide, by decide⟩

/-- C1 (amended): a transport-level fetch failure yields the empty result
pair, and the id is nonetheless added to the completed set by the
collection step — the failure is caught inside the worker and looks like a
successful empty unit — so the id is excluded from the work set of any
later run. -/
theorem transport_error_empty_and_completed (w : World) (idred : Nat)
    (h : w.fetch idred = .fallo) (cache : Cache) (st : RunState)
    (lo hi : Nat) :
    obtener_y_procesar_datos w.geoNet idred (w.fetch idred) cache =
        ([], [], cache) ∧
      idred ∈ (procesar_id w st idred).1.procesados ∧
      idred ∉ ids_a_procesar lo hi (procesar_id w st idred).1.procesados := by
  refine ⟨by rw [h]; rfl, ?_, ?_⟩
  · exact Finset.mem_insert_self idred st.procesados
  · intro hmem
    rw [work_set_exact] at hmem
    exact hmem.2.2 (Finset.mem_insert_self idred st.procesados)

/-- C1 witness: the amended behavior at the concrete failing input — id 1,
a world whose every fetch is a transport error, empty initial state. -/
theorem transport_error_empty_and_completed_witness :
    (⟨fun _ => FetchOutcome.fallo, fun _ _ => .fallo⟩ : World).fetch 1 =
        .fallo ∧
      (obtener_y_procesar_datos (fun _ _ => .fallo) 1
          ((⟨fun _ => FetchOutcome.fallo, fun _ _ => .fallo⟩ : World).fetch 1)
          [] = ([], [], []) ∧
        1 ∈ (procesar_id ⟨fun _ => FetchOutcome.fallo, fun _ _ => .fallo⟩
              ⟨∅, [], [], []⟩ 1).1.procesados ∧
        1 ∉ ids_a_procesar 1 2
          (procesar_id ⟨fun _ => FetchOutcome.fallo, fun _ _ => .fallo⟩
            ⟨∅, [], [], []⟩ 1).1.procesados) :=
  ⟨rfl,
    transport_error_empty_and_completed
      ⟨fun _ => FetchOutcome.fallo, fun _ _ => .fallo⟩ 1 rfl []
      ⟨∅, [], [], []⟩ 1 2⟩

/-- C2 counterexample: with a corrupt progress document (and everything
else absent), `main` raises the JSON decode error instead of downgrading
to an empty completed-id set — the load is fatal, refuting the claim that
it is never fatal. -/
theorem corrupt_progress_fatal_cex :
    main' ⟨fun _ => FetchOutcome.sin_datos, fun _ _ => .fallo⟩ 1 2 []
        ⟨.corrupt, .absent, .absent, .absent⟩ =
      .error progress_decode_error := rfl

/-- C2 (amended): corrupt cache and output documents are downgraded to
empty with a logged warning — a run with corrupt output documents behaves
exactly like one with absent output documents — but a corrupt progress
document raises an uncaught decode error out of `main`, aborting the run:
only the progress load lacks the downgrade. -/
theorem corrupt_state_downgrade :
    load_cache .corrupt = load_cache .absent ∧
    load_features .corrupt = load_features .absent ∧
    (∀ (w : World) (lo hi : Nat) (cache0 : Cache)
      (o e : FileState (List Feature)) (c : FileState Cache),
        main' w lo hi cache0 ⟨.corrupt, o, e, c⟩ =
          .error progress_decode_error) ∧
    (∀ (w : World) (lo hi : Nat) (cache0 : Cache)
      (p : FileState (List Nat)) (c : FileState Cache),
        main' w lo hi cache0 ⟨p, .corrupt, .corrupt, c⟩ =
          main' w lo hi cache0 ⟨p, .absent, .absent, c⟩) := by
  refine ⟨rfl, rfl, fun w lo hi cache0 o e c => rfl,
    fun w lo hi cache0 p c => ?_⟩
  cases p <;> rfl
